import Mathlib

/-!
# Verification of the proposal submission pipeline

A shallow embedding of the submission pipeline of `app.py`: input
validation, base64 file encoding, payload assembly, best-effort datastore
logging, webhook dispatch with outcome classification, and the final
status update.  Pure Lean functions mirror the Python helpers
(`validate_inputs`, `encode_file_to_base64`, `log_submission_to_supabase`,
`log_reference_docs_to_supabase`, `update_supabase_status`,
`send_to_make`) and a single `runSubmission` function mirrors the
click handler.  External effects (clock, datastore responses, HTTP
outcome) enter through an explicit environment record.
-/

namespace ProposalMaker

/-- Parsed JSON values, as produced by `response.json()` on the webhook
response body.  Numeric leaves are modelled as integers. -/
inductive Json where
  | null
  | bool (b : Bool)
  | num (n : Int)
  | str (s : String)
  | arr (elems : List Json)
  | obj (fields : List (String × Json))

/-- Python truthiness of a parsed JSON value, as used by
`"draft_ready" if response_data else "processing"` in the click handler:
`None`, `False`, `0`, `""`, `[]` and `{}` are falsy, everything else truthy. -/
def Json.isTruthy : Json → Bool
  | .null => false
  | .bool b => b
  | .num n => n != 0
  | .str s => s != ""
  | .arr elems => !elems.isEmpty
  | .obj fields => !fields.isEmpty

/-! ## Base64 (the transport-safe textual encoding used by `encode_file_to_base64`) -/

/-- The standard base64 alphabet used by Python's `base64.b64encode`. -/
def b64Alphabet : List Char :=
  ['A', 'B', 'C', 'D', 'E', 'F', 'G', 'H', 'I', 'J', 'K', 'L', 'M',
   'N', 'O', 'P', 'Q', 'R', 'S', 'T', 'U', 'V', 'W', 'X', 'Y', 'Z',
   'a', 'b', 'c', 'd', 'e', 'f', 'g', 'h', 'i', 'j', 'k', 'l', 'm',
   'n', 'o', 'p', 'q', 'r', 's', 't', 'u', 'v', 'w', 'x', 'y', 'z',
   '0', '1', '2', '3', '4', '5', '6', '7', '8', '9', '+', '/']

/-- The alphabet character for a six-bit group. -/
def encodeB64Char (n : Nat) : Char := b64Alphabet.getD n 'A'

/-- Position of a character in the base64 alphabet. -/
def indexInAlphabet : List Char → Char → Option Nat
  | [], _ => none
  | a :: rest, c =>
    if c = a then some 0 else (indexInAlphabet rest c).map (· + 1)

/-- The six-bit value of an alphabet character (`none` for `'='` and any
character outside the alphabet). -/
def decodeB64Char (c : Char) : Option Nat := indexInAlphabet b64Alphabet c

/-- Standard base64 encoding of a byte sequence (bytes as naturals `< 256`),
including `'='` padding, as performed by Python's `base64.b64encode` inside
`encode_file_to_base64`. -/
def b64encode : List Nat → List Char
  | [] => []
  | [a] =>
    [encodeB64Char (a / 4), encodeB64Char (a % 4 * 16), '=', '=']
  | [a, b] =>
    [encodeB64Char (a / 4), encodeB64Char (a % 4 * 16 + b / 16),
     encodeB64Char (b % 16 * 4), '=']
  | a :: b :: c :: rest =>
    encodeB64Char (a / 4) :: encodeB64Char (a % 4 * 16 + b / 16) ::
    encodeB64Char (b % 16 * 4 + c / 64) :: encodeB64Char (c % 64) ::
    b64encode rest

/-- Modelled from the spec: standard base64 decoding of the textual
representation back to bytes.  The repository itself never decodes (the
spec's round-trip property concerns the standard decoder, as in Python's
`base64.b64decode`): quartets of alphabet characters yield three bytes,
with `'='` padding allowed only on the final quartet. -/
def b64decode : List Char → Option (List Nat)
  | [] => some []
  | c1 :: c2 :: c3 :: c4 :: rest =>
    (decodeB64Char c1).bind fun s1 =>
    (decodeB64Char c2).bind fun s2 =>
    if c3 = '=' then
      if c4 = '=' ∧ rest = [] then some [s1 * 4 + s2 / 16] else none
    else
      (decodeB64Char c3).bind fun s3 =>
      if c4 = '=' then
        if rest = [] then
          some [s1 * 4 + s2 / 16, s2 % 16 * 16 + s3 / 4]
        else none
      else
        (decodeB64Char c4).bind fun s4 =>
        (b64decode rest).map
          (fun bs => (s1 * 4 + s2 / 16) :: (s2 % 16 * 16 + s3 / 4) ::
            (s3 % 4 * 64 + s4) :: bs)
  | _ => none

/-- Base64 encoding packaged as a `String`, the form the payload carries. -/
def b64encodeString (bs : List Nat) : String := String.mk (b64encode bs)

/-- Base64 decoding from the `String` form. -/
def b64decodeString (s : String) : Option (List Nat) := b64decode s.toList

/-! ## Python string primitives

The handful of Python `str` operations the source uses, modelled over the
character list of a `String`. -/

/-- Python's `s.strip()`: drop whitespace from both ends. -/
def pyStrip (s : String) : String :=
  String.mk
    (((s.toList.dropWhile Char.isWhitespace).reverse.dropWhile
      Char.isWhitespace).reverse)

/-- Python's `s.lower()` on the ASCII range. -/
def pyLower (s : String) : String := String.mk (s.toList.map Char.toLower)

/-- Python's `s[:n]`: the first `n` characters. -/
def takeChars (n : Nat) (s : String) : String := String.mk (s.toList.take n)

/-- Python's `", ".join(l)`. -/
def joinComma : List String → String
  | [] => ""
  | [x] => x
  | x :: y :: rest => x ++ ", " ++ joinComma (y :: rest)

/-! ## Uploaded files and the file encoder -/

/-- An uploaded file as Streamlit hands it to the script: display name,
declared byte size, declared media type, and the byte content.
`content = none` models `getvalue()` raising (the read/encode exception
that `encode_file_to_base64` catches). -/
structure UploadedFile where
  name : String
  size : Nat
  type : String
  content : Option (List Nat)

/-- `encode_file_to_base64`: base64-encode the file's bytes, or `None` when
reading/encoding raises (the `except` branch shows an error and returns
`None`). -/
def encode_file_to_base64 (uploaded_file : UploadedFile) : Option String :=
  uploaded_file.content.map b64encodeString

/-! ## Decimal rendering (Python's integer string formatting) -/

/-- Accumulator loop producing the decimal digits of `n`, most significant
first, as Python's `str`/f-string formatting of a non-negative `int`.
The `fuel` parameter only forces structural recursion; `natDecimal`
supplies enough of it. -/
def natDecimalAux : Nat → Nat → List Char → List Char
  | 0, _, acc => acc
  | fuel + 1, n, acc =>
    if n < 10 then Char.ofNat (48 + n) :: acc
    else natDecimalAux fuel (n / 10) (Char.ofNat (48 + n % 10) :: acc)

/-- Decimal rendering of a natural number. -/
def natDecimal (n : Nat) : String := String.mk (natDecimalAux (n + 1) n [])

/-- The f-string `f"{size_mb:.1f}"` of `validate_inputs`, where
`size_mb = size / (1024 * 1024)` as an exact binary float (division by a
power of two is exact): the value in megabytes rounded to one decimal
place, ties to even, as Python's float formatting. -/
def formatMB (size : Nat) : String :=
  let n := size * 10
  let q := n / 1048576
  let r := n % 1048576
  let tenths :=
    if 524288 < r then q + 1
    else if r < 524288 then q
    else if q % 2 = 0 then q else q + 1
  natDecimal (tenths / 10) ++ "." ++ natDecimal (tenths % 10)

/-! ## The input validator -/

/-- The extension allow-list `allowed` of `validate_inputs`. -/
def allowedRfpExtensions : List String := [".pdf", ".docx", ".doc"]

/-- Python's `name.rsplit(".", 1)[-1]`: the part after the last `'.'`, or
the whole string when it contains no dot. -/
def afterLastDot (s : String) : String :=
  if s.toList.contains '.' then
    String.mk ((s.toList.reverse.takeWhile (fun c => c ≠ '.')).reverse)
  else s

/-- `validate_inputs`: the five checks of the click handler's validator, in
source order, first failure winning.  The size check `size_mb > 10` on the
exact float `size / (1024 * 1024)` is the integer comparison
`10 * 1024 * 1024 < size`. -/
def validate_inputs (client_name : String) (service_types : List String)
    (rfp_file : Option UploadedFile) : Bool × String :=
  if client_name = "" ∨ pyStrip client_name = "" then
    (false, "Please enter a client name.")
  else if service_types = [] then
    (false, "Please select at least one service type.")
  else
    match rfp_file with
    | none => (false, "Please upload an RFP document.")
    | some f =>
      let ext := "." ++ pyLower (afterLastDot f.name)
      if ¬ allowedRfpExtensions.contains ext then
        (false, "Invalid file type \x27" ++ ext ++ "\x27. Allowed: " ++
          joinComma allowedRfpExtensions)
      else if 10 * 1024 * 1024 < f.size then
        (false, "RFP file is " ++ formatMB f.size ++
          "MB — maximum allowed is 10MB.")
      else
        (true, "")

/-! ## The payload builder -/

/-- The `rfp_document` group of the payload. -/
structure RfpDoc where
  filename : String
  content : String
  size : Nat
  type : String

/-- One entry of the `reference_documents` list. -/
structure RefDoc where
  filename : String
  content : String
  size : Nat

/-- The `options` group of the payload. -/
structure SubmissionOptions where
  include_pricing : Bool
  include_timeline : Bool
  tone : String
  additional_notes : String

/-- The `metadata` group of the payload. -/
structure SubmissionMetadata where
  submission_id : String
  timestamp : String
  version : String

/-- The payload POSTed to the webhook, as assembled by the click handler. -/
structure Payload where
  client_name : String
  service_types : List String
  rfp_document : RfpDoc
  reference_documents : List RefDoc
  options : SubmissionOptions
  metadata : SubmissionMetadata

/-- The generated submission identifier `f"DACTA-{int(time.time())}"`,
with `t` the integer unix timestamp at submission time. -/
def mkSubmissionId (t : Nat) : String := "DACTA-" ++ natDecimal t

/-! ## Supabase logging -/

/-- A row of the datastore's insert response (`response.data`); only the
generated `id` column is read by the code. -/
structure SbRow where
  id : String

/-- A row of the `proposals` table, the `data` dict built by
`log_submission_to_supabase`. -/
structure ProposalRow where
  submission_id : String
  client_name : String
  service_types : List String
  status : String
  rfp_filename : String
  tone : String
  include_pricing : Bool
  include_timeline : Bool
  additional_notes : String

/-- A row of the `reference_docs` table. -/
structure RefRow where
  proposal_id : String
  filename : String
  file_size : Nat

/-- The `proposals` row inserted for a payload: mirrors the payload fields
with initial status `"processing"`. -/
def proposalRowOf (payload : Payload) : ProposalRow :=
  { submission_id := payload.metadata.submission_id,
    client_name := payload.client_name,
    service_types := payload.service_types,
    status := "processing",
    rfp_filename := payload.rfp_document.filename,
    tone := payload.options.tone,
    include_pricing := payload.options.include_pricing,
    include_timeline := payload.options.include_timeline,
    additional_notes := payload.options.additional_notes }

/-- `log_submission_to_supabase`: interprets the datastore's response to the
initial insert (`resp`, an exception message or the returned rows) exactly
as the source does: first row's `id` on data, the fixed message on empty
data, the prefixed exception text on an exception.  Returns
`(success, record_id_or_error_message)`. -/
def log_submission_to_supabase (resp : Except String (List SbRow)) :
    Bool × String :=
  match resp with
  | .error e => (false, "Supabase insert error: " ++ e)
  | .ok [] => (false, "Supabase returned no data on insert.")
  | .ok (r :: _) => (true, r.id)

/-- The `rows` list built by `log_reference_docs_to_supabase`, one row per
reference file, each linked to `proposal_id`. -/
def refRowsOf (proposal_id : String) (reference_files : List UploadedFile) :
    List RefRow :=
  reference_files.map fun f =>
    { proposal_id := proposal_id, filename := f.name, file_size := f.size }

/-- `log_reference_docs_to_supabase`, modelled as the insert call it issues:
`none` when `reference_files` is empty (the early `return`), otherwise the
target proposal id with the rows inserted.  (Its `except` branch only emits
a warning; the warning is produced in `runSubmission`.) -/
def log_reference_docs_to_supabase (proposal_id : String)
    (reference_files : List UploadedFile) : Option (String × List RefRow) :=
  if reference_files.isEmpty then none
  else some (proposal_id, refRowsOf proposal_id reference_files)

/-- `update_supabase_status`: patch `status` on every `proposals` row whose
`submission_id` column equals the given one (the `.eq` filter of the
update).  The `extra_fields` parameter of the source is `None` at every
call site and omitted; the `except` branch only emits a warning, produced
in `runSubmission`. -/
def update_supabase_status (submission_id : String) (status : String)
    (table : List ProposalRow) : List ProposalRow :=
  table.map fun row =>
    if row.submission_id = submission_id then { row with status := status }
    else row

/-! ## The webhook dispatcher -/

/-- Outcome of the `requests.post` call, as the environment delivers it:
an HTTP response (status code, body text, and the body parsed as JSON when
`response.json()` succeeds — `none` when parsing raises), or one of the
transport exceptions the source catches. -/
inductive HttpOutcome where
  | response (status_code : Nat) (text : String) (parsed : Option Json)
  | timeout
  | connectionError
  | requestException (msg : String)
  | otherException (msg : String)

/-- The `(success, message, response_data)` triple returned by
`send_to_make`. -/
structure DispatchResult where
  success : Bool
  message : String
  response_data : Json

/-- `send_to_make`: classify the outcome of the webhook POST.  HTTP 200 is
success with the parsed body (an unparsable body treated as the empty
dict); 404, 429 and 500 map to their fixed messages; any other status to
the generic message with the body truncated to 300 characters
(`response.text[:300]`); timeout, connection failure, other request
exceptions and any remaining exception each to their own message. -/
def send_to_make (outcome : HttpOutcome) : DispatchResult :=
  match outcome with
  | .response status_code text parsed =>
    if status_code = 200 then
      { success := true,
        message := "Proposal generation initiated successfully.",
        response_data := parsed.getD (Json.obj []) }
    else if status_code = 404 then
      { success := false,
        message := "Webhook endpoint not found. Verify the URL in Streamlit secrets.",
        response_data := Json.obj [] }
    else if status_code = 429 then
      { success := false,
        message := "Rate limit reached on Make.com. Please wait a moment and retry.",
        response_data := Json.obj [] }
    else if status_code = 500 then
      { success := false,
        message := "Make.com server error. Check your scenario for configuration issues.",
        response_data := Json.obj [] }
    else
      { success := false,
        message := "Unexpected response (HTTP " ++ natDecimal status_code ++
          "): " ++ takeChars 300 text,
        response_data := Json.obj [] }
  | .timeout =>
    { success := false,
      message := "Request timed out after 60 seconds. Make.com may be unreachable.",
      response_data := Json.obj [] }
  | .connectionError =>
    { success := false,
      message := "Connection failed. Check your internet connection.",
      response_data := Json.obj [] }
  | .requestException msg =>
    { success := false,
      message := "Request error: " ++ msg,
      response_data := Json.obj [] }
  | .otherException msg =>
    { success := false,
      message := "Unexpected error: " ++ msg,
      response_data := Json.obj [] }

/-! ## The click handler -/

/-- The form values read by the click handler. -/
structure FormInputs where
  client_name : String
  service_types : List String
  rfp_file : Option UploadedFile
  reference_files : List UploadedFile
  include_pricing : Bool
  include_timeline : Bool
  tone_preference : String
  additional_notes : String

/-- The session-scoped counters (`st.session_state`). -/
structure SessionState where
  submission_count : Nat
  last_submission_id : Option String

/-- External effects observed during one click: the clock, the
`datetime.now().isoformat()` string, the datastore's response to the
proposals insert, exception messages (if any) of the two best-effort
datastore calls, and the outcome of the webhook POST. -/
structure Env where
  time : Nat
  isoTimestamp : String
  insertResponse : Except String (List SbRow)
  refInsertError : Option String
  statusUpdateError : Option String
  dispatch : HttpOutcome

/-- How one click ended. -/
inductive RunOutcome where
  | validationFailed (msg : String)
  | encodingFailed
  | completed (success : Bool) (message : String)

/-- Observable effects of one click of the Generate button. -/
structure RunResult where
  outcome : RunOutcome
  submissionId : Option String
  payload : Option Payload
  insertArg : Option ProposalRow
  refDocsCall : Option (String × List RefRow)
  dispatched : Option Payload
  statusPatch : Option (String × String)
  warnings : List String
  session : SessionState

/-- The submission handler (`if generate_button:` block): validate, stop on
a validation error; encode the RFP, stop (`st.stop()`) on an encoding
failure; encode reference files dropping those that fail; build the
payload; insert the proposal row (non-fatal on failure — a warning);
insert reference-doc rows only when the proposal insert succeeded; POST to
the webhook; patch the proposal status `"draft_ready"`/`"processing"` on
success (by truthiness of the parsed response data) or `"failed"`
otherwise; bump the session counters only on success. -/
def runSubmission (inp : FormInputs) (st : SessionState) (env : Env) :
    RunResult :=
  let v := validate_inputs inp.client_name inp.service_types inp.rfp_file
  if v.fst = false then
    { outcome := .validationFailed v.snd, submissionId := none,
      payload := none, insertArg := none, refDocsCall := none,
      dispatched := none, statusPatch := none, warnings := [], session := st }
  else
    match inp.rfp_file with
    | none =>
      -- unreachable: a passing validation guarantees an RFP file is present
      { outcome := .validationFailed "Please upload an RFP document.",
        submissionId := none, payload := none, insertArg := none,
        refDocsCall := none, dispatched := none, statusPatch := none,
        warnings := [], session := st }
    | some rfp =>
      let submission_id := mkSubmissionId env.time
      match encode_file_to_base64 rfp with
      | none =>
        { outcome := .encodingFailed, submissionId := some submission_id,
          payload := none, insertArg := none, refDocsCall := none,
          dispatched := none, statusPatch := none, warnings := [],
          session := st }
      | some rfp_base64 =>
        let reference_data := inp.reference_files.filterMap fun ref =>
          (encode_file_to_base64 ref).map fun content =>
            ({ filename := ref.name, content := content,
               size := ref.size } : RefDoc)
        let payload : Payload :=
          { client_name := pyStrip inp.client_name,
            service_types := inp.service_types,
            rfp_document :=
              { filename := rfp.name, content := rfp_base64,
                size := rfp.size, type := rfp.type },
            reference_documents := reference_data,
            options :=
              { include_pricing := inp.include_pricing,
                include_timeline := inp.include_timeline,
                tone := inp.tone_preference,
                additional_notes := inp.additional_notes },
            metadata :=
              { submission_id := submission_id,
                timestamp := env.isoTimestamp,
                version := "1.0.0" } }
        let sb := log_submission_to_supabase env.insertResponse
        let refCall :=
          if sb.fst then
            log_reference_docs_to_supabase sb.snd inp.reference_files
          else none
        let sbWarnings :=
          if sb.fst then
            match refCall, env.refInsertError with
            | some _, some e => ["⚠️ Reference docs logged with issue: " ++ e]
            | _, _ => []
          else ["⚠️ Supabase logging issue: " ++ sb.snd]
        let d := send_to_make env.dispatch
        let patch :=
          if d.success then
            (submission_id,
             if d.response_data.isTruthy then "draft_ready" else "processing")
          else (submission_id, "failed")
        let updWarnings :=
          match env.statusUpdateError with
          | some e => ["⚠️ Could not update Supabase status: " ++ e]
          | none => []
        { outcome := .completed d.success d.message,
          submissionId := some submission_id,
          payload := some payload,
          insertArg := some (proposalRowOf payload),
          refDocsCall := refCall,
          dispatched := some payload,
          statusPatch := some patch,
          warnings := sbWarnings ++ updWarnings,
          session :=
            if d.success then
              { submission_count := st.submission_count + 1,
                last_submission_id := some submission_id }
            else st }

/-- The status the spec's Status Updater contract assigns to a dispatch
outcome: `"draft_ready"` on HTTP 200 with non-empty parsed response data,
`"processing"` on HTTP 200 with empty (or unparsable, treated as empty)
data, `"failed"` otherwise. -/
def claimedStatus : HttpOutcome → String
  | .response status_code _ parsed =>
    if status_code = 200 then
      if (parsed.getD (Json.obj [])).isTruthy then "draft_ready"
      else "processing"
    else "failed"
  | _ => "failed"

end ProposalMaker

namespace ProposalMaker

/-! ## Helper lemmas for the base64 round trip -/

theorem decode_encodeB64Char : ∀ s < 64, decodeB64Char (encodeB64Char s) = some s := by
  decide

theorem encodeB64Char_ne_eq : ∀ s < 64, encodeB64Char s ≠ '=' := by
  decide

theorem b64_roundtrip (bs : List Nat) (h : ∀ b ∈ bs, b < 256) :
    b64decode (b64encode bs) = some bs := by
  induction bs using b64encode.induct with
  | case1 => rfl
  | case2 a =>
    have ha : a < 256 := h a (by simp)
    have e1 := decode_encodeB64Char (a / 4) (by omega)
    have e2 := decode_encodeB64Char (a % 4 * 16) (by omega)
    simp only [b64encode, b64decode, e1, e2, Option.some_bind, if_pos rfl]
    simp only [and_self, if_true, ite_true, Option.some.injEq, List.cons.injEq,
      and_true]
    omega
  | case3 a b =>
    have ha : a < 256 := h a (by simp)
    have hb : b < 256 := h b (by simp)
    have e1 := decode_encodeB64Char (a / 4) (by omega)
    have e2 := decode_encodeB64Char (a % 4 * 16 + b / 16) (by omega)
    have e3 := decode_encodeB64Char (b % 16 * 4) (by omega)
    have n3 := encodeB64Char_ne_eq (b % 16 * 4) (by omega)
    simp only [b64encode, b64decode, e1, e2, e3, Option.some_bind,
      if_neg n3, if_pos rfl]
    simp only [ite_true, Option.some.injEq, List.cons.injEq, and_true]
    omega
  | case4 a b c rest ih =>
    have ha : a < 256 := h a (by simp)
    have hb : b < 256 := h b (by simp)
    have hc : c < 256 := h c (by simp)
    have hrest : ∀ x ∈ rest, x < 256 := fun x hx => h x (by simp [hx])
    have e1 := decode_encodeB64Char (a / 4) (by omega)
    have e2 := decode_encodeB64Char (a % 4 * 16 + b / 16) (by omega)
    have e3 := decode_encodeB64Char (b % 16 * 4 + c / 64) (by omega)
    have e4 := decode_encodeB64Char (c % 64) (by omega)
    have n3 := encodeB64Char_ne_eq (b % 16 * 4 + c / 64) (by omega)
    have n4 := encodeB64Char_ne_eq (c % 64) (by omega)
    simp only [b64encode, b64decode, e1, e2, e3, e4, Option.some_bind,
      if_neg n3, if_neg n4, ih hrest, Option.map_some']
    simp only [Option.some.injEq, List.cons.injEq, and_true]
    refine ⟨by omega, by omega, by omega⟩

/-! ## Helper lemmas: decimal rendering -/

theorem isDigit_ofNat_digit : ∀ m < 10, (Char.ofNat (48 + m)).isDigit := by
  decide

theorem natDecimalAux_digits (fuel : Nat) :
    ∀ (n : Nat) (acc : List Char), (∀ c ∈ acc, c.isDigit) →
      ∀ c ∈ natDecimalAux fuel n acc, c.isDigit := by
  induction fuel with
  | zero => intro n acc hacc c hc; exact hacc c hc
  | succ f ih =>
    intro n acc hacc c hc
    by_cases hn : n < 10
    · rw [natDecimalAux, if_pos hn] at hc
      rcases List.mem_cons.mp hc with rfl | hmem
      · exact isDigit_ofNat_digit n hn
      · exact hacc c hmem
    · rw [natDecimalAux, if_neg hn] at hc
      refine ih (n / 10) _ ?_ c hc
      intro d hd
      rcases List.mem_cons.mp hd with rfl | hmem
      · exact isDigit_ofNat_digit (n % 10) (Nat.mod_lt n (by omega))
      · exact hacc d hmem

theorem natDecimalAux_length (fuel : Nat) :
    ∀ (n : Nat) (acc : List Char), n < 10 ^ fuel → 1 ≤ fuel →
      acc.length < (natDecimalAux fuel n acc).length := by
  induction fuel with
  | zero => intro n acc _ hf; omega
  | succ f ih =>
    intro n acc h _
    by_cases hn : n < 10
    · simp [natDecimalAux, hn]
    · rw [natDecimalAux, if_neg hn]
      have hf1 : 1 ≤ f := by
        rcases Nat.eq_zero_or_pos f with rfl | hp
        · rw [pow_one] at h; omega
        · exact hp
      have hd : n / 10 < 10 ^ f := by
        apply Nat.div_lt_of_lt_mul
        rw [pow_succ'] at h
        exact h
      calc acc.length < (Char.ofNat (48 + n % 10) :: acc).length := by simp
      _ < _ := ih (n / 10) _ hd hf1

theorem natDecimal_chars_ne_nil (n : Nat) : natDecimalAux (n + 1) n [] ≠ [] := by
  have hpow : n < 10 ^ (n + 1) := by
    calc n < 2 ^ n * 1 := by simpa using Nat.lt_two_pow n
    _ ≤ 10 ^ n * 10 := Nat.mul_le_mul (Nat.pow_le_pow_left (by omega) n) (by omega)
    _ = 10 ^ (n + 1) := (pow_succ 10 n).symm
  have hlen := natDecimalAux_length (n + 1) n [] hpow (by omega)
  intro hcontra
  rw [hcontra] at hlen
  simp at hlen

/-! ## Helper lemmas: the validator's first check -/

theorem name_cond_false {cn : String} (h : pyStrip cn ≠ "") :
    ¬ (cn = "" ∨ pyStrip cn = "") := by
  rintro (rfl | he)
  · exact h rfl
  · exact h he

/-! ## Helper lemma: the dispatch-phase status choice equals the spec's -/

theorem patch_eq_claimed (sid : String) (o : HttpOutcome) :
    (if (send_to_make o).success then
      (sid,
       if (send_to_make o).response_data.isTruthy then "draft_ready"
       else "processing")
    else (sid, "failed")) = (sid, claimedStatus o) := by
  cases o with
  | response status_code text parsed =>
    by_cases h200 : status_code = 200
    · subst h200
      simp [send_to_make, claimedStatus]
    · simp only [send_to_make, claimedStatus, if_neg h200]
      split_ifs <;> simp_all
  | timeout => rfl
  | connectionError => rfl
  | requestException msg => rfl
  | otherException msg => rfl

/-! ## Claim theorems -/

/-- C7: Round-trip — for every byte sequence, encoding it with the File
Encoder (`encode_file_to_base64`, i.e. base64) to its transport-safe
textual representation and then decoding that text reproduces the original
bytes exactly. -/
theorem C7_base64_roundtrip (f : UploadedFile) (bs : List Nat)
    (hc : f.content = some bs) (hbytes : ∀ b ∈ bs, b < 256) :
    encode_file_to_base64 f = some (b64encodeString bs) ∧
    b64decodeString (b64encodeString bs) = some bs := by
  constructor
  · rw [encode_file_to_base64, hc, Option.map_some']
  · simpa [b64decodeString, b64encodeString] using b64_roundtrip bs hbytes

theorem C7_base64_roundtrip_witness :
    encode_file_to_base64
      { name := "rfp.pdf", size := 4, type := "application/pdf",
        content := some [37, 80, 68, 70] } =
      some (b64encodeString [37, 80, 68, 70]) ∧
    b64decodeString (b64encodeString [37, 80, 68, 70]) =
      some [37, 80, 68, 70] :=
  C7_base64_roundtrip
    { name := "rfp.pdf", size := 4, type := "application/pdf",
      content := some [37, 80, 68, 70] }
    [37, 80, 68, 70] rfl (by decide)

/-- C2: the Validator checks its rules in a fixed order with the first
failure winning: an empty-after-stripping client name is rejected with the
name-required message whatever the other inputs; with a name present, an
empty service-type list is rejected; then a missing RFP file; then an
extension outside the allow-list, regardless of the declared size; then a
size strictly over 10 MB. -/
theorem C2_validator_rules :
    (∀ cn sts file, pyStrip cn = "" →
      validate_inputs cn sts file = (false, "Please enter a client name.")) ∧
    (∀ cn file, pyStrip cn ≠ "" →
      validate_inputs cn [] file =
        (false, "Please select at least one service type.")) ∧
    (∀ cn sts, pyStrip cn ≠ "" → sts ≠ [] →
      validate_inputs cn sts none =
        (false, "Please upload an RFP document.")) ∧
    (∀ cn sts f, pyStrip cn ≠ "" → sts ≠ [] →
      ¬ allowedRfpExtensions.contains ("." ++ pyLower (afterLastDot f.name)) →
      validate_inputs cn sts (some f) =
        (false, "Invalid file type \x27" ++
          ("." ++ pyLower (afterLastDot f.name)) ++ "\x27. Allowed: " ++
          joinComma allowedRfpExtensions)) ∧
    (∀ cn sts f, pyStrip cn ≠ "" → sts ≠ [] →
      allowedRfpExtensions.contains ("." ++ pyLower (afterLastDot f.name)) →
      10 * 1024 * 1024 < f.size →
      validate_inputs cn sts (some f) =
        (false, "RFP file is " ++ formatMB f.size ++
          "MB — maximum allowed is 10MB.")) := by
  refine ⟨?_, ?_, ?_, ?_, ?_⟩
  · intro cn sts file h
    unfold validate_inputs
    rw [if_pos (Or.inr h)]
  · intro cn file h
    unfold validate_inputs
    rw [if_neg (name_cond_false h), if_pos rfl]
  · intro cn sts h hsts
    unfold validate_inputs
    rw [if_neg (name_cond_false h), if_neg hsts]
  · intro cn sts f h hsts hext
    unfold validate_inputs
    rw [if_neg (name_cond_false h), if_neg hsts]
    simp only []
    rw [if_pos hext]
  · intro cn sts f h hsts hext hsize
    unfold validate_inputs
    rw [if_neg (name_cond_false h), if_neg hsts]
    simp only []
    rw [if_neg (not_not_intro hext), if_pos hsize]

theorem C2_validator_rules_witness :
    validate_inputs "   " ["Consulting"] none =
      (false, "Please enter a client name.") ∧
    validate_inputs "DBS Bank" [] none =
      (false, "Please select at least one service type.") ∧
    validate_inputs "DBS Bank" ["Consulting"] none =
      (false, "Please upload an RFP document.") ∧
    validate_inputs "DBS Bank" ["Consulting"]
      (some { name := "virus.exe", size := 99999999999, type := "x",
              content := none }) =
      (false, "Invalid file type \x27.exe\x27. Allowed: .pdf, .docx, .doc") ∧
    validate_inputs "DBS Bank" ["Consulting"]
      (some { name := "big.pdf", size := 11534336, type := "application/pdf",
              content := none }) =
      (false, "RFP file is 11.0MB — maximum allowed is 10MB.") :=
  ⟨C2_validator_rules.1 "   " ["Consulting"] none (by decide),
   C2_validator_rules.2.1 "DBS Bank" none (by decide),
   C2_validator_rules.2.2.1 "DBS Bank" ["Consulting"] (by decide) (by decide),
   C2_validator_rules.2.2.2.1 "DBS Bank" ["Consulting"] _
     (by decide) (by decide) (by decide),
   C2_validator_rules.2.2.2.2 "DBS Bank" ["Consulting"] _
     (by decide) (by decide) (by decide) (by decide)⟩

/-- C6: every RFP file strictly above 10 MB is rejected with a message
containing the computed size in MB (to one decimal place); files of at
most 10 MB pass the size check (the validator accepts when every other
check passes too). -/
theorem C6_size_limit :
    (∀ cn sts f, pyStrip cn ≠ "" → sts ≠ [] →
      allowedRfpExtensions.contains ("." ++ pyLower (afterLastDot f.name)) →
      10 * 1024 * 1024 < f.size →
      ∃ pre post, validate_inputs cn sts (some f) =
        (false, pre ++ formatMB f.size ++ post)) ∧
    (∀ cn sts f, pyStrip cn ≠ "" → sts ≠ [] →
      allowedRfpExtensions.contains ("." ++ pyLower (afterLastDot f.name)) →
      f.size ≤ 10 * 1024 * 1024 →
      validate_inputs cn sts (some f) = (true, "")) := by
  constructor
  · intro cn sts f h hsts hext hsize
    refine ⟨"RFP file is ", "MB — maximum allowed is 10MB.", ?_⟩
    unfold validate_inputs
    rw [if_neg (name_cond_false h), if_neg hsts]
    simp only []
    rw [if_neg (not_not_intro hext), if_pos hsize]
  · intro cn sts f h hsts hext hsize
    unfold validate_inputs
    rw [if_neg (name_cond_false h), if_neg hsts]
    simp only []
    rw [if_neg (not_not_intro hext), if_neg (by omega)]

theorem C6_size_limit_witness :
    (∃ pre post,
      validate_inputs "DBS Bank" ["Security Operations"]
        (some { name := "big.pdf", size := 11534336,
                type := "application/pdf", content := none }) =
        (false, pre ++ formatMB 11534336 ++ post)) ∧
    validate_inputs "DBS Bank" ["Security Operations"]
      (some { name := "ok.pdf", size := 2097152, type := "application/pdf",
              content := none }) = (true, "") :=
  ⟨C6_size_limit.1 "DBS Bank" ["Security Operations"] _
     (by decide) (by decide) (by decide) (by decide),
   C6_size_limit.2 "DBS Bank" ["Security Operations"] _
     (by decide) (by decide) (by decide) (by decide)⟩

/-- C3: the Dispatcher classifies every outcome of the webhook POST into a
closed set of cases with distinct user-facing messages — HTTP 200 is
success with the parsed body (unparsable tolerated, treated as empty);
404/429/500 map to fixed messages; any other status to a generic message
carrying the body truncated to 300 characters; timeout, connection
failure and other transport exceptions each get their own message — and
success is returned only for HTTP 200. -/
theorem C3_dispatch_classification :
    (∀ text parsed, send_to_make (.response 200 text parsed) =
      { success := true,
        message := "Proposal generation initiated successfully.",
        response_data := parsed.getD (Json.obj []) }) ∧
    (∀ text parsed, send_to_make (.response 404 text parsed) =
      { success := false,
        message := "Webhook endpoint not found. Verify the URL in Streamlit secrets.",
        response_data := Json.obj [] }) ∧
    (∀ text parsed, send_to_make (.response 429 text parsed) =
      { success := false,
        message := "Rate limit reached on Make.com. Please wait a moment and retry.",
        response_data := Json.obj [] }) ∧
    (∀ text parsed, send_to_make (.response 500 text parsed) =
      { success := false,
        message := "Make.com server error. Check your scenario for configuration issues.",
        response_data := Json.obj [] }) ∧
    (∀ status_code text parsed, status_code ≠ 200 → status_code ≠ 404 →
      status_code ≠ 429 → status_code ≠ 500 →
      send_to_make (.response status_code text parsed) =
        { success := false,
          message := "Unexpected response (HTTP " ++ natDecimal status_code ++
            "): " ++ takeChars 300 text,
          response_data := Json.obj [] }) ∧
    (send_to_make .timeout =
      { success := false,
        message := "Request timed out after 60 seconds. Make.com may be unreachable.",
        response_data := Json.obj [] }) ∧
    (send_to_make .connectionError =
      { success := false,
        message := "Connection failed. Check your internet connection.",
        response_data := Json.obj [] }) ∧
    (∀ msg, send_to_make (.requestException msg) =
      { success := false, message := "Request error: " ++ msg,
        response_data := Json.obj [] }) ∧
    (∀ msg, send_to_make (.otherException msg) =
      { success := false, message := "Unexpected error: " ++ msg,
        response_data := Json.obj [] }) ∧
    ["Proposal generation initiated successfully.",
     "Webhook endpoint not found. Verify the URL in Streamlit secrets.",
     "Rate limit reached on Make.com. Please wait a moment and retry.",
     "Make.com server error. Check your scenario for configuration issues.",
     "Request timed out after 60 seconds. Make.com may be unreachable.",
     "Connection failed. Check your internet connection."].Pairwise (· ≠ ·) ∧
    (∀ outcome, (send_to_make outcome).success = true →
      ∃ text parsed, outcome = .response 200 text parsed) := by
  refine ⟨fun _ _ => rfl, fun _ _ => rfl, fun _ _ => rfl, fun _ _ => rfl,
    ?_, rfl, rfl, fun _ => rfl, fun _ => rfl, by decide, ?_⟩
  · intro status_code text parsed h200 h404 h429 h500
    simp only [send_to_make]
    rw [if_neg h200, if_neg h404, if_neg h429, if_neg h500]
  · intro outcome h
    cases outcome with
    | response status_code text parsed =>
      refine ⟨text, parsed, ?_⟩
      by_cases h200 : status_code = 200
      · rw [h200]
      · exfalso
        simp only [send_to_make] at h
        rw [if_neg h200] at h
        revert h
        split_ifs <;> simp
    | timeout => simp [send_to_make] at h
    | connectionError => simp [send_to_make] at h
    | requestException msg => simp [send_to_make] at h
    | otherException msg => simp [send_to_make] at h

theorem C3_dispatch_classification_witness :
    send_to_make (.response 503 "oops" none) =
      { success := false,
        message := "Unexpected response (HTTP 503): oops",
        response_data := Json.obj [] } ∧
    (∃ text parsed,
      HttpOutcome.response 200 "ok" (some (Json.obj [("ok", Json.bool true)]))
        = .response 200 text parsed) :=
  ⟨C3_dispatch_classification.2.2.2.2.1 503 "oops" none
     (by decide) (by decide) (by decide) (by decide),
   (C3_dispatch_classification.2.2.2.2.2.2.2.2.2.2)
     (.response 200 "ok" (some (Json.obj [("ok", Json.bool true)]))) rfl⟩

/-- C8: whenever a click generates a submission identifier, it is the
string `"DACTA-"` followed by the decimal rendering of the integer unix
timestamp at submission time, and hence matches the pattern
`DACTA-<digits>`. -/
theorem C8_submission_id_format (inp : FormInputs) (st : SessionState)
    (env : Env) (sid : String)
    (h : (runSubmission inp st env).submissionId = some sid) :
    sid = "DACTA-" ++ natDecimal env.time ∧
    ∃ ds : List Char, sid = "DACTA-" ++ String.mk ds ∧ ds ≠ [] ∧
      ∀ c ∈ ds, c.isDigit := by
  have hsid : sid = mkSubmissionId env.time := by
    unfold runSubmission at h
    by_cases hval : (validate_inputs inp.client_name inp.service_types
        inp.rfp_file).fst = false
    · rw [if_pos hval] at h
      exact absurd h (by simp)
    · rw [if_neg hval] at h
      cases hrf : inp.rfp_file with
      | none =>
        simp only [hrf] at h
        exact absurd h (by simp)
      | some rfp =>
        simp only [hrf] at h
        cases henc : encode_file_to_base64 rfp with
        | none =>
          simp only [henc, Option.some.injEq] at h
          exact h.symm
        | some rfp64 =>
          simp only [henc, Option.some.injEq] at h
          exact h.symm
  subst hsid
  refine ⟨rfl, natDecimalAux (env.time + 1) env.time [], rfl,
    natDecimal_chars_ne_nil env.time, ?_⟩
  exact natDecimalAux_digits (env.time + 1) env.time [] (by simp)

theorem C8_submission_id_format_witness :
    mkSubmissionId 1730000000 = "DACTA-" ++ natDecimal 1730000000 ∧
    ∃ ds : List Char,
      mkSubmissionId 1730000000 = "DACTA-" ++ String.mk ds ∧ ds ≠ [] ∧
      ∀ c ∈ ds, c.isDigit :=
  C8_submission_id_format
    { client_name := "DBS Bank", service_types := ["Security Operations"],
      rfp_file := some { name := "rfp.pdf", size := 4,
                         type := "application/pdf",
                         content := some [37, 80, 68, 70] },
      reference_files := [], include_pricing := true,
      include_timeline := true, tone_preference := "Professional",
      additional_notes := "" }
    { submission_count := 0, last_submission_id := none }
    { time := 1730000000, isoTimestamp := "2024-10-27T00:00:00",
      insertResponse := .ok [{ id := "rec1" }], refInsertError := none,
      statusUpdateError := none,
      dispatch := .response 200 "ok" (some (Json.obj [("ok", Json.bool true)])) }
    (mkSubmissionId 1730000000) (by decide)

/-- C1: after dispatch completes, the click handler asks the Status
Updater to patch the row keyed by the generated submission identifier with
`"draft_ready"` when dispatch succeeded (HTTP 200) with non-empty parsed
response data, `"processing"` when it succeeded with empty (or unparsable,
treated as empty) data, and `"failed"` otherwise; the inserted proposal
row carries that same submission identifier; and `update_supabase_status`
rewrites the status of exactly the rows whose `submission_id` column
matches. -/
theorem C1_status_updater
    (inp : FormInputs) (st : SessionState) (env : Env)
    (rfp : UploadedFile) (bs : List Nat)
    (hf : inp.rfp_file = some rfp)
    (hv : (validate_inputs inp.client_name inp.service_types
      inp.rfp_file).fst = true)
    (hc : rfp.content = some bs) :
    (runSubmission inp st env).statusPatch =
      some (mkSubmissionId env.time, claimedStatus env.dispatch) ∧
    (∃ row, (runSubmission inp st env).insertArg = some row ∧
      row.submission_id = mkSubmissionId env.time) ∧
    (∀ sid status table row, row ∈ table →
      (row.submission_id = sid →
        { row with status := status } ∈
          update_supabase_status sid status table) ∧
      (row.submission_id ≠ sid →
        row ∈ update_supabase_status sid status table)) := by
  rw [hf] at hv
  refine ⟨?_, ?_, ?_⟩
  · have hpatch := patch_eq_claimed (mkSubmissionId env.time) env.dispatch
    unfold runSubmission
    rw [hf]
    simp [hv, encode_file_to_base64, hc, hpatch]
  · unfold runSubmission
    rw [hf]
    simp only [hv, encode_file_to_base64, hc, Option.map_some']
    exact ⟨_, rfl, rfl⟩
  · intro sid status table row hrow
    constructor
    · intro heq
      unfold update_supabase_status
      exact List.mem_map.mpr ⟨row, hrow, by rw [if_pos heq]⟩
    · intro hne
      unfold update_supabase_status
      exact List.mem_map.mpr ⟨row, hrow, by rw [if_neg hne]⟩

theorem C1_status_updater_witness :
    (runSubmission
      { client_name := "DBS Bank", service_types := ["Security Operations"],
        rfp_file := some { name := "rfp.pdf", size := 4,
                           type := "application/pdf",
                           content := some [37, 80, 68, 70] },
        reference_files := [], include_pricing := true,
        include_timeline := true, tone_preference := "Professional",
        additional_notes := "" }
      { submission_count := 0, last_submission_id := none }
      { time := 1730000000, isoTimestamp := "2024-10-27T00:00:00",
        insertResponse := .ok [{ id := "rec1" }], refInsertError := none,
        statusUpdateError := none,
        dispatch := .response 200 "ok"
          (some (Json.obj [("ok", Json.bool true)])) }).statusPatch =
      some (mkSubmissionId 1730000000,
        claimedStatus
          (.response 200 "ok" (some (Json.obj [("ok", Json.bool true)])))) :=
  (C1_status_updater _ _ _
    { name := "rfp.pdf", size := 4, type := "application/pdf",
      content := some [37, 80, 68, 70] }
    [37, 80, 68, 70] rfl (by decide) rfl).1

/-- C4: when encoding the RFP file fails, the pipeline halts via
`st.stop()`: nothing is dispatched, nothing is inserted, no status patch
is issued, and the session counters keep their values. -/
theorem C4_encoding_failure_halts
    (inp : FormInputs) (st : SessionState) (env : Env) (rfp : UploadedFile)
    (hf : inp.rfp_file = some rfp)
    (hv : (validate_inputs inp.client_name inp.service_types
      inp.rfp_file).fst = true)
    (hc : rfp.content = none) :
    (runSubmission inp st env).outcome = .encodingFailed ∧
    (runSubmission inp st env).dispatched = none ∧
    (runSubmission inp st env).insertArg = none ∧
    (runSubmission inp st env).refDocsCall = none ∧
    (runSubmission inp st env).statusPatch = none ∧
    (runSubmission inp st env).session = st := by
  rw [hf] at hv
  refine ⟨?_, ?_, ?_, ?_, ?_, ?_⟩ <;>
    (unfold runSubmission; rw [hf]; simp [hv, encode_file_to_base64, hc])

theorem C4_encoding_failure_halts_witness :
    (runSubmission
      { client_name := "DBS Bank", service_types := ["Security Operations"],
        rfp_file := some { name := "rfp.pdf", size := 4,
                           type := "application/pdf", content := none },
        reference_files := [], include_pricing := true,
        include_timeline := true, tone_preference := "Professional",
        additional_notes := "" }
      { submission_count := 0, last_submission_id := none }
      { time := 1730000000, isoTimestamp := "2024-10-27T00:00:00",
        insertResponse := .ok [{ id := "rec1" }], refInsertError := none,
        statusUpdateError := none, dispatch := .timeout }).outcome =
      .encodingFailed ∧
    (runSubmission
      { client_name := "DBS Bank", service_types := ["Security Operations"],
        rfp_file := some { name := "rfp.pdf", size := 4,
                           type := "application/pdf", content := none },
        reference_files := [], include_pricing := true,
        include_timeline := true, tone_preference := "Professional",
        additional_notes := "" }
      { submission_count := 0, last_submission_id := none }
      { time := 1730000000, isoTimestamp := "2024-10-27T00:00:00",
        insertResponse := .ok [{ id := "rec1" }], refInsertError := none,
        statusUpdateError := none, dispatch := .timeout }).dispatched =
      none :=
  ⟨(C4_encoding_failure_halts _ _ _
      { name := "rfp.pdf", size := 4, type := "application/pdf",
        content := none } rfl (by decide) rfl).1,
   (C4_encoding_failure_halts _ _ _
      { name := "rfp.pdf", size := 4, type := "application/pdf",
        content := none } rfl (by decide) rfl).2.1⟩

/-- C5: a failing initial proposals insert is non-fatal — the warning with
the insert's error text is surfaced and the payload is still dispatched to
the webhook. -/
theorem C5_insert_failure_nonfatal
    (inp : FormInputs) (st : SessionState) (env : Env)
    (rfp : UploadedFile) (bs : List Nat)
    (hf : inp.rfp_file = some rfp)
    (hv : (validate_inputs inp.client_name inp.service_types
      inp.rfp_file).fst = true)
    (hc : rfp.content = some bs)
    (hsb : (log_submission_to_supabase env.insertResponse).fst = false) :
    (∃ p, (runSubmission inp st env).dispatched = some p) ∧
    ("⚠️ Supabase logging issue: " ++
        (log_submission_to_supabase env.insertResponse).snd) ∈
      (runSubmission inp st env).warnings := by
  rw [hf] at hv
  constructor
  · unfold runSubmission
    rw [hf]
    simp only [hv, encode_file_to_base64, hc, Option.map_some']
    exact ⟨_, rfl⟩
  · unfold runSubmission
    rw [hf]
    simp [hv, encode_file_to_base64, hc, hsb]

theorem C5_insert_failure_nonfatal_witness :
    ("⚠️ Supabase logging issue: " ++
        (log_submission_to_supabase
          (Except.error "connection refused")).snd) ∈
      (runSubmission
        { client_name := "DBS Bank",
          service_types := ["Security Operations"],
          rfp_file := some { name := "rfp.pdf", size := 4,
                             type := "application/pdf",
                             content := some [37, 80, 68, 70] },
          reference_files := [], include_pricing := true,
          include_timeline := true, tone_preference := "Professional",
          additional_notes := "" }
        { submission_count := 0, last_submission_id := none }
        { time := 1730000000, isoTimestamp := "2024-10-27T00:00:00",
          insertResponse := .error "connection refused",
          refInsertError := none, statusUpdateError := none,
          dispatch := .response 200 "" none }).warnings :=
  (C5_insert_failure_nonfatal
    { client_name := "DBS Bank", service_types := ["Security Operations"],
      rfp_file := some { name := "rfp.pdf", size := 4,
                         type := "application/pdf",
                         content := some [37, 80, 68, 70] },
      reference_files := [], include_pricing := true,
      include_timeline := true, tone_preference := "Professional",
      additional_notes := "" }
    { submission_count := 0, last_submission_id := none }
    { time := 1730000000, isoTimestamp := "2024-10-27T00:00:00",
      insertResponse := .error "connection refused",
      refInsertError := none, statusUpdateError := none,
      dispatch := .response 200 "" none }
    { name := "rfp.pdf", size := 4, type := "application/pdf",
      content := some [37, 80, 68, 70] }
    [37, 80, 68, 70] rfl (by decide) rfl rfl).2

/-- C9: the session counters move only on a successful dispatch — a click
that fails validation, fails RFP encoding, or whose dispatch fails leaves
them unchanged; a successful dispatch increments `submission_count` by one
and sets `last_submission_id` to the new identifier. -/
theorem C9_session_counters (inp : FormInputs) (st : SessionState)
    (env : Env) :
    ((validate_inputs inp.client_name inp.service_types inp.rfp_file).fst
        = false →
      (runSubmission inp st env).session = st) ∧
    (∀ rfp, inp.rfp_file = some rfp →
      (validate_inputs inp.client_name inp.service_types inp.rfp_file).fst
        = true →
      rfp.content = none →
      (runSubmission inp st env).session = st) ∧
    (∀ rfp bs, inp.rfp_file = some rfp →
      (validate_inputs inp.client_name inp.service_types inp.rfp_file).fst
        = true →
      rfp.content = some bs →
      (send_to_make env.dispatch).success = false →
      (runSubmission inp st env).session = st) ∧
    (∀ rfp bs, inp.rfp_file = some rfp →
      (validate_inputs inp.client_name inp.service_types inp.rfp_file).fst
        = true →
      rfp.content = some bs →
      (send_to_make env.dispatch).success = true →
      (runSubmission inp st env).session =
        { submission_count := st.submission_count + 1,
          last_submission_id := some (mkSubmissionId env.time) }) := by
  refine ⟨?_, ?_, ?_, ?_⟩
  · intro hval
    unfold runSubmission
    rw [if_pos hval]
  · intro rfp hf hv hc
    rw [hf] at hv
    unfold runSubmission
    rw [hf]
    simp [hv, encode_file_to_base64, hc]
  · intro rfp bs hf hv hc hd
    rw [hf] at hv
    unfold runSubmission
    rw [hf]
    simp [hv, encode_file_to_base64, hc, hd]
  · intro rfp bs hf hv hc hd
    rw [hf] at hv
    unfold runSubmission
    rw [hf]
    simp [hv, encode_file_to_base64, hc, hd]

theorem C9_session_counters_witness :
    (runSubmission
      { client_name := "DBS Bank", service_types := ["Security Operations"],
        rfp_file := some { name := "rfp.pdf", size := 4,
                           type := "application/pdf",
                           content := some [37, 80, 68, 70] },
        reference_files := [], include_pricing := true,
        include_timeline := true, tone_preference := "Professional",
        additional_notes := "" }
      { submission_count := 0, last_submission_id := none }
      { time := 1730000000, isoTimestamp := "2024-10-27T00:00:00",
        insertResponse := .ok [{ id := "rec1" }], refInsertError := none,
        statusUpdateError := none,
        dispatch := .response 200 "ok"
          (some (Json.obj [("ok", Json.bool true)])) }).session =
      { submission_count := 1,
        last_submission_id := some (mkSubmissionId 1730000000) } :=
  (C9_session_counters _ _ _).2.2.2
    { name := "rfp.pdf", size := 4, type := "application/pdf",
      content := some [37, 80, 68, 70] }
    [37, 80, 68, 70] rfl (by decide) rfl rfl

/-- C10: reference-document rows are inserted only when the initial
proposals insert succeeded, each linked to the record id that insert
returned; a failed proposal insert, or an empty reference-file list,
results in no `reference_docs` insert at all. -/
theorem C10_reference_docs
    (inp : FormInputs) (st : SessionState) (env : Env)
    (rfp : UploadedFile) (bs : List Nat)
    (hf : inp.rfp_file = some rfp)
    (hv : (validate_inputs inp.client_name inp.service_types
      inp.rfp_file).fst = true)
    (hc : rfp.content = some bs) :
    ((log_submission_to_supabase env.insertResponse).fst = false →
      (runSubmission inp st env).refDocsCall = none) ∧
    (inp.reference_files = [] →
      (runSubmission inp st env).refDocsCall = none) ∧
    (∀ rid, log_submission_to_supabase env.insertResponse = (true, rid) →
      inp.reference_files ≠ [] →
      (runSubmission inp st env).refDocsCall =
        some (rid, refRowsOf rid inp.reference_files)) ∧
    (∀ rid files row, row ∈ refRowsOf rid files → row.proposal_id = rid) := by
  rw [hf] at hv
  refine ⟨?_, ?_, ?_, ?_⟩
  · intro hsb
    unfold runSubmission
    rw [hf]
    simp [hv, encode_file_to_base64, hc, hsb]
  · intro href
    unfold runSubmission
    rw [hf]
    simp [hv, encode_file_to_base64, hc, href, log_reference_docs_to_supabase]
  · intro rid hsb hne
    unfold runSubmission
    rw [hf]
    simp [hv, encode_file_to_base64, hc, hsb, log_reference_docs_to_supabase,
      hne]
  · intro rid files row hrow
    simp only [refRowsOf, List.mem_map] at hrow
    rcases hrow with ⟨f, _, rfl⟩
    rfl

theorem C10_reference_docs_witness :
    (runSubmission
      { client_name := "DBS Bank", service_types := ["Security Operations"],
        rfp_file := some { name := "rfp.pdf", size := 4,
                           type := "application/pdf",
                           content := some [37, 80, 68, 70] },
        reference_files := [{ name := "specs.pdf", size := 7,
                              type := "application/pdf",
                              content := some [1, 2, 3] }],
        include_pricing := true, include_timeline := true,
        tone_preference := "Professional", additional_notes := "" }
      { submission_count := 0, last_submission_id := none }
      { time := 1730000000, isoTimestamp := "2024-10-27T00:00:00",
        insertResponse := .ok [{ id := "rec1" }], refInsertError := none,
        statusUpdateError := none,
        dispatch := .response 200 "ok" none }).refDocsCall =
      some ("rec1",
        refRowsOf "rec1" [{ name := "specs.pdf", size := 7,
                            type := "application/pdf",
                            content := some [1, 2, 3] }]) :=
  ((C10_reference_docs _ _ _
      { name := "rfp.pdf", size := 4, type := "application/pdf",
        content := some [37, 80, 68, 70] }
      [37, 80, 68, 70] rfl (by decide) rfl).2.2.1) "rec1" rfl (by simp)

end ProposalMaker
